import Mathlib

/-!
Verification of the LearnFlow backend (src/backend/main.py).

The file shallowly embeds the backend: a JSON value type together with an
executable model of json.loads and json.dumps, the pydantic models
QuizQuestion, VideoRecommendation, QueryRequest and FullContentResponse with
their validation, the retry loop call_with_retries, and the request handler
generate_content together with the route dispatch of the FastAPI app.
Machine-level effects are made observable through explicit traces: the list
of back-off sleeps, the number of outbound HTTP attempts, the number of
json.loads calls on the payload text, and the stage at which a request
failed (matching the distinct exception types of the Python code).
-/

set_option linter.unusedVariables false
set_option maxRecDepth 100000

/-- JSON values as produced by json.loads. Numbers are modelled as integers;
none of the payloads handled by the backend carries a number, and the model
rejects float literals rather than misreading them. -/
inductive Json where
  | null : Json
  | bool : Bool → Json
  | num : Int → Json
  | str : String → Json
  | arr : List Json → Json
  | obj : List (String × Json) → Json

/-- Character 123, an opening curly brace. -/
def obraceChar : Char := Char.ofNat 123

/-- Character 125, a closing curly brace. -/
def cbraceChar : Char := Char.ofNat 125

/-- Lookup in an association list, first match wins. Python dicts built by
json.loads carry unique keys, so this coincides with dict access. -/
def lookupKv : List (String × Json) → String → Option Json
  | [], _ => none
  | (k, v) :: rest, name => if k = name then some v else lookupKv rest name

/-- Python dict access d[k]: some value on a dict that has the key, none for
a missing key (KeyError) or a non-dict value (TypeError). -/
def Json.getKey : Json → String → Option Json
  | Json.obj kvs, name => lookupKv kvs name
  | _, _ => none

/-- Python list indexing d[i]: some element inside bounds, none otherwise
(IndexError) or on a non-list value (TypeError). -/
def Json.getIdx : Json → Nat → Option Json
  | Json.arr xs, i => xs.get? i
  | _, _ => none

/-- Insertion with Python dict semantics: an existing key is overwritten in
place, a new key is appended. json.loads resolves duplicate keys this way. -/
def dictInsert : List (String × Json) → String → Json → List (String × Json)
  | [], k, v => [(k, v)]
  | (k0, v0) :: rest, k, v =>
    if k0 = k then (k0, v) :: rest else (k0, v0) :: dictInsert rest k v

/-- Decoding of a single JSON string escape character. -/
def escChar (c : Char) : Option Char :=
  if c = '"' then some '"'
  else if c = '\\' then some '\\'
  else if c = '/' then some '/'
  else if c = 'n' then some '\n'
  else if c = 't' then some '\t'
  else if c = 'r' then some '\r'
  else if c = 'b' then some (Char.ofNat 8)
  else if c = 'f' then some (Char.ofNat 12)
  else none

/-- Body of a JSON string literal after the opening quote: the decoded
characters and the input following the closing quote. -/
def parseStringBody : List Char → Option (List Char × List Char)
  | [] => none
  | c :: cs =>
    if c = '"' then some ([], cs)
    else if c = '\\' then
      match cs with
      | [] => none
      | e :: cs2 =>
        match escChar e with
        | none => none
        | some d =>
          match parseStringBody cs2 with
          | none => none
          | some (acc, rest) => some (d :: acc, rest)
    else
      match parseStringBody cs with
      | none => none
      | some (acc, rest) => some (c :: acc, rest)

/-- Longest digit run at the head of the input. -/
def spanDigits : List Char → List Char × List Char
  | [] => ([], [])
  | c :: cs =>
    if c.isDigit then
      match spanDigits cs with
      | (ds, rest) => (c :: ds, rest)
    else ([], c :: cs)

/-- Numeric value of a digit run. -/
def digitsVal (ds : List Char) : Nat :=
  ds.foldl (fun a c => a * 10 + (c.toNat - 48)) 0

/-- True when the input continues with a float marker; the model refuses
float literals instead of truncating them. -/
def floatFollows : List Char → Bool
  | [] => false
  | c :: _ => if c = '.' ∨ c = 'e' ∨ c = 'E' then true else false

/-- Integer literal at the head of the input. -/
def parseNumTok : List Char → Option (Json × List Char)
  | '-' :: rest =>
    match spanDigits rest with
    | ([], _) => none
    | (ds, rest2) =>
      if floatFollows rest2 then none
      else some (Json.num (-(Int.ofNat (digitsVal ds))), rest2)
  | cs =>
    match spanDigits cs with
    | ([], _) => none
    | (ds, rest2) =>
      if floatFollows rest2 then none
      else some (Json.num (Int.ofNat (digitsVal ds)), rest2)

/-- Lexical tokens of JSON. -/
inductive JTok where
  | ob : JTok
  | cb : JTok
  | ok : JTok
  | ck : JTok
  | colon : JTok
  | comma : JTok
  | jstr : String → JTok
  | jval : Json → JTok

/-- Prepend a token to a tokenizer result. -/
def consTok (t : JTok) : Option (List JTok) → Option (List JTok)
  | none => none
  | some ts => some (t :: ts)

/-- Tokenizer for JSON text. The fuel only bounds the recursion; every call
consumes at least one character, so length plus one suffices. -/
def tokenize : Nat → List Char → Option (List JTok)
  | _, [] => some []
  | 0, _ => none
  | fuel + 1, c :: cs =>
    if c = ' ' ∨ c = '\n' ∨ c = '\t' ∨ c = '\r' then tokenize fuel cs
    else if c = obraceChar then consTok JTok.ob (tokenize fuel cs)
    else if c = cbraceChar then consTok JTok.cb (tokenize fuel cs)
    else if c = '[' then consTok JTok.ok (tokenize fuel cs)
    else if c = ']' then consTok JTok.ck (tokenize fuel cs)
    else if c = ':' then consTok JTok.colon (tokenize fuel cs)
    else if c = ',' then consTok JTok.comma (tokenize fuel cs)
    else if c = '"' then
      match parseStringBody cs with
      | none => none
      | some (b, rest) => consTok (JTok.jstr (String.mk b)) (tokenize fuel rest)
    else if c = 't' then
      match cs with
      | 'r' :: 'u' :: 'e' :: rest => consTok (JTok.jval (Json.bool true)) (tokenize fuel rest)
      | _ => none
    else if c = 'f' then
      match cs with
      | 'a' :: 'l' :: 's' :: 'e' :: rest => consTok (JTok.jval (Json.bool false)) (tokenize fuel rest)
      | _ => none
    else if c = 'n' then
      match cs with
      | 'u' :: 'l' :: 'l' :: rest => consTok (JTok.jval Json.null) (tokenize fuel rest)
      | _ => none
    else if c.isDigit ∨ c = '-' then
      match parseNumTok (c :: cs) with
      | none => none
      | some (j, rest) => consTok (JTok.jval j) (tokenize fuel rest)
    else none

/-- Partially built containers on the parser stack. -/
inductive JFrame where
  | inArr : List Json → JFrame
  | inObj : List (String × Json) → JFrame
  | inObjVal : List (String × Json) → String → JFrame

/-- What the parser expects next. -/
inductive JMode where
  | value : JMode
  | arrStart : JMode
  | objStart : JMode
  | keyEx : JMode
  | colonEx : JMode
  | afterVal : JMode

/-- Parser machine state: still consuming, or a single finished value. -/
inductive JState where
  | going : JMode → List JFrame → JState
  | finished : Json → JState

/-- Deliver a completed value to the enclosing container, or finish. -/
def completeVal (v : Json) : List JFrame → Option JState
  | [] => some (JState.finished v)
  | JFrame.inArr acc :: rest => some (JState.going JMode.afterVal (JFrame.inArr (v :: acc) :: rest))
  | JFrame.inObjVal acc k :: rest =>
    some (JState.going JMode.afterVal (JFrame.inObj (dictInsert acc k v) :: rest))
  | JFrame.inObj _ :: _ => none

/-- One transition of the JSON parser machine. -/
def stepTok : JState → JTok → Option JState
  | JState.finished _, _ => none
  | JState.going JMode.value (JFrame.inObj _ :: _), _ => none
  | JState.going JMode.value st, JTok.jval j => completeVal j st
  | JState.going JMode.value st, JTok.jstr s => completeVal (Json.str s) st
  | JState.going JMode.value st, JTok.ok => some (JState.going JMode.arrStart (JFrame.inArr [] :: st))
  | JState.going JMode.value st, JTok.ob => some (JState.going JMode.objStart (JFrame.inObj [] :: st))
  | JState.going JMode.arrStart st, JTok.jval j => completeVal j st
  | JState.going JMode.arrStart st, JTok.jstr s => completeVal (Json.str s) st
  | JState.going JMode.arrStart st, JTok.ok => some (JState.going JMode.arrStart (JFrame.inArr [] :: st))
  | JState.going JMode.arrStart st, JTok.ob => some (JState.going JMode.objStart (JFrame.inObj [] :: st))
  | JState.going JMode.arrStart (JFrame.inArr [] :: rest), JTok.ck => completeVal (Json.arr []) rest
  | JState.going JMode.objStart (JFrame.inObj acc :: rest), JTok.jstr k =>
    some (JState.going JMode.colonEx (JFrame.inObjVal acc k :: rest))
  | JState.going JMode.objStart (JFrame.inObj acc :: rest), JTok.cb => completeVal (Json.obj acc) rest
  | JState.going JMode.keyEx (JFrame.inObj acc :: rest), JTok.jstr k =>
    some (JState.going JMode.colonEx (JFrame.inObjVal acc k :: rest))
  | JState.going JMode.colonEx st, JTok.colon => some (JState.going JMode.value st)
  | JState.going JMode.afterVal (JFrame.inArr acc :: rest), JTok.comma =>
    some (JState.going JMode.value (JFrame.inArr acc :: rest))
  | JState.going JMode.afterVal (JFrame.inObj acc :: rest), JTok.comma =>
    some (JState.going JMode.keyEx (JFrame.inObj acc :: rest))
  | JState.going JMode.afterVal (JFrame.inArr acc :: rest), JTok.ck =>
    completeVal (Json.arr acc.reverse) rest
  | JState.going JMode.afterVal (JFrame.inObj acc :: rest), JTok.cb =>
    completeVal (Json.obj acc) rest
  | _, _ => none

/-- Run the parser machine over a token list; succeeds only when exactly one
complete value was consumed. -/
def runToks : JState → List JTok → Option Json
  | JState.finished v, [] => some v
  | _, [] => none
  | s, t :: ts =>
    match stepTok s t with
    | none => none
    | some s2 => runToks s2 ts

/-- Model of Python json.loads: none models a raised JSONDecodeError. -/
def json_loads (s : String) : Option Json :=
  match tokenize (s.length + 1) s.toList with
  | none => none
  | some toks => runToks (JState.going JMode.value []) toks

/-- Escaping of one character inside a serialized JSON string. -/
def escapeJsonChar (c : Char) : List Char :=
  if c = '"' then ['\\', '"']
  else if c = '\\' then ['\\', '\\']
  else if c = '\n' then ['\\', 'n']
  else if c = '\t' then ['\\', 't']
  else if c = '\r' then ['\\', 'r']
  else [c]

/-- Serialized JSON string literal. -/
def dumpsString (s : String) : List Char :=
  '"' :: (s.toList.map escapeJsonChar).flatten ++ ['"']

/-- Comma-separated concatenation. -/
def commaSep : List (List Char) → List Char
  | [] => []
  | [x] => x
  | x :: xs => x ++ ',' :: commaSep xs

/-- Serializer body; the fuel bounds nesting depth and is chosen far above
the depth of any value built in this file. -/
def dumpsV : Nat → Json → List Char
  | 0, _ => []
  | fuel + 1, j =>
    match j with
    | Json.null => ['n', 'u', 'l', 'l']
    | Json.bool true => ['t', 'r', 'u', 'e']
    | Json.bool false => ['f', 'a', 'l', 's', 'e']
    | Json.num n => (toString n).toList
    | Json.str s => dumpsString s
    | Json.arr xs => '[' :: commaSep (xs.map (dumpsV fuel)) ++ [']']
    | Json.obj kvs =>
      obraceChar :: commaSep (kvs.map (fun kv => dumpsString kv.1 ++ ':' :: dumpsV fuel kv.2)) ++ [cbraceChar]

/-- Model of Python json.dumps, used to build concrete wire strings. -/
def Json.dumps (j : Json) : String :=
  String.mk (dumpsV 1000 j)

/-- Sanity check of the parser on a literal. -/
theorem json_loads_null : json_loads "null" = some Json.null := rfl

/-- Sanity check of the parser on an array with whitespace and numbers. -/
theorem json_loads_array : json_loads " [true, false, 12, -3] " =
    some (Json.arr [Json.bool true, Json.bool false, Json.num 12, Json.num (-3)]) := rfl

/-- Sanity check of the parser on non-JSON text. -/
theorem json_loads_bad : json_loads "not json" = none := rfl

/-- Sanity check that the parser inverts the serializer on a nested value
with an escaped quote. -/
theorem json_loads_dumps_nested :
    json_loads (Json.dumps (Json.obj [("a", Json.str "x\"y"), ("b", Json.arr [])])) =
    some (Json.obj [("a", Json.str "x\"y"), ("b", Json.arr [])]) := rfl

/-- Pydantic model QuizQuestion of main.py. -/
structure QuizQuestion where
  question : String
  options : List String
  correctAnswer : String

/-- Pydantic model VideoRecommendation of main.py. -/
structure VideoRecommendation where
  title : String
  url : String

/-- Pydantic model QueryRequest of main.py, the request body. -/
structure QueryRequest where
  query : String

/-- Pydantic model FullContentResponse of main.py, the response body. Note
that examples is a single string in the source. -/
structure FullContentResponse where
  explanation : String
  examples : String
  videos : List VideoRecommendation
  quiz : List QuizQuestion

/-- Pydantic validation of a str field from JSON data: only a JSON string
is accepted. -/
def validateStr : Json → Option String
  | Json.str s => some s
  | _ => none

/-- Validate every element of a list, failing when any element fails. -/
def mapOption (f : Json → Option α) : List Json → Option (List α)
  | [] => some []
  | x :: xs =>
    match f x with
    | none => none
    | some y =>
      match mapOption f xs with
      | none => none
      | some ys => some (y :: ys)

/-- Pydantic validation of a typing.List field from JSON data: a JSON array
whose elements all validate. -/
def validateList (f : Json → Option α) : Json → Option (List α)
  | Json.arr xs => mapOption f xs
  | _ => none

/-- Pydantic validation of a List of str field. -/
def validateStrList : Json → Option (List String) :=
  validateList validateStr

/-- QuizQuestion.model_validate: requires a JSON object carrying the three
fields with the declared types; extra keys are ignored, which is the
pydantic default. -/
def QuizQuestion.model_validate : Json → Option QuizQuestion
  | Json.obj kvs =>
    (lookupKv kvs "question").bind fun qj =>
    (validateStr qj).bind fun q =>
    (lookupKv kvs "options").bind fun oj =>
    (validateStrList oj).bind fun opts =>
    (lookupKv kvs "correctAnswer").bind fun cj =>
    (validateStr cj).map fun ca => QuizQuestion.mk q opts ca
  | _ => none

/-- VideoRecommendation.model_validate. -/
def VideoRecommendation.model_validate : Json → Option VideoRecommendation
  | Json.obj kvs =>
    (lookupKv kvs "title").bind fun tj =>
    (validateStr tj).bind fun t =>
    (lookupKv kvs "url").bind fun uj =>
    (validateStr uj).map fun u => VideoRecommendation.mk t u
  | _ => none

/-- QueryRequest validation as performed by the framework boundary on the
request body: the query field must exist and be a string; there is no
constraint on its content. -/
def QueryRequest.model_validate : Json → Option QueryRequest
  | Json.obj kvs =>
    (lookupKv kvs "query").bind fun qj =>
    (validateStr qj).map fun q => QueryRequest.mk q
  | _ => none

/-- FullContentResponse.model_validate as invoked in generate_content. -/
def FullContentResponse.model_validate : Json → Option FullContentResponse
  | Json.obj kvs =>
    (lookupKv kvs "explanation").bind fun ej =>
    (validateStr ej).bind fun e =>
    (lookupKv kvs "examples").bind fun xj =>
    (validateStr xj).bind fun x =>
    (lookupKv kvs "videos").bind fun vj =>
    (validateList VideoRecommendation.model_validate vj).bind fun vs =>
    (lookupKv kvs "quiz").bind fun qj =>
    (validateList QuizQuestion.model_validate qj).map fun qs =>
    FullContentResponse.mk e x vs qs
  | _ => none

/-- Serialization of a QuizQuestion by the response_model machinery. -/
def QuizQuestion.toJson (q : QuizQuestion) : Json :=
  Json.obj [("question", Json.str q.question),
            ("options", Json.arr (q.options.map Json.str)),
            ("correctAnswer", Json.str q.correctAnswer)]

/-- Serialization of a VideoRecommendation. -/
def VideoRecommendation.toJson (v : VideoRecommendation) : Json :=
  Json.obj [("title", Json.str v.title), ("url", Json.str v.url)]

/-- Serialization of a FullContentResponse, the 200 response body. -/
def FullContentResponse.toJson (r : FullContentResponse) : Json :=
  Json.obj [("explanation", Json.str r.explanation),
            ("examples", Json.str r.examples),
            ("videos", Json.arr (r.videos.map VideoRecommendation.toJson)),
            ("quiz", Json.arr (r.quiz.map QuizQuestion.toJson))]

/-- One provider HTTP response: status code and raw body text. The provider
is the external collaborator, so a run of the system is parameterized by the
response each outbound attempt would receive. -/
structure HttpResponse where
  status : Nat
  body : String

/-- httpx success predicate: raise_for_status raises on any non-2xx code. -/
def is2xx (s : Nat) : Bool :=
  decide (200 ≤ s) && decide (s < 300)

/-- Outcome of call_with_retries, separating the distinct Python exceptions:
a returned JSON body, a JSONDecodeError escaping from response.json, a
re-raised HTTPStatusError, and the bare Exception raised after exhausting
the retries. -/
inductive RetryResult where
  | success : Json → RetryResult
  | bodyDecodeError : RetryResult
  | httpStatusError : Nat → RetryResult
  | exhausted : RetryResult

/-- Observable trace of call_with_retries: its outcome, the asyncio.sleep
delays performed in order, and the number of outbound HTTP attempts. -/
structure CallTrace where
  result : RetryResult
  sleeps : List Nat
  attempts : Nat

/-- Body of the for-loop of call_with_retries, over the remaining attempt
indices of range(max_retries). A 2xx response returns response.json();
a 429 sleeps 2 to the power i and continues; any other status re-raises
immediately; an exhausted range raises the final Exception. -/
def callLoop (responses : Nat → HttpResponse) : List Nat → CallTrace
  | [] => CallTrace.mk RetryResult.exhausted [] 0
  | i :: rest =>
    if is2xx (responses i).status then
      match json_loads (responses i).body with
      | some j => CallTrace.mk (RetryResult.success j) [] 1
      | none => CallTrace.mk RetryResult.bodyDecodeError [] 1
    else if (responses i).status = 429 then
      CallTrace.mk (callLoop responses rest).result
        (2 ^ i :: (callLoop responses rest).sleeps)
        ((callLoop responses rest).attempts + 1)
    else CallTrace.mk (RetryResult.httpStatusError (responses i).status) [] 1

/-- call_with_retries of main.py: for i in range(max_retries). -/
def call_with_retries (responses : Nat → HttpResponse) (max_retries : Nat) : CallTrace :=
  callLoop responses (List.range max_retries)

/-- Envelope extraction of generate_content:
gemini_response["candidates"][0]["content"]["parts"][0]["text"].
none models the KeyError, IndexError or TypeError raised when the path is
absent. -/
def extract_json_string (body : Json) : Option Json :=
  (body.getKey "candidates").bind fun c =>
  (c.getIdx 0).bind fun c0 =>
  (c0.getKey "content").bind fun ct =>
  (ct.getKey "parts").bind fun ps =>
  (ps.getIdx 0).bind fun p0 =>
  p0.getKey "text"

/-- The stage at which a request failed, matching the distinct exception
raised there by the Python code. -/
inductive FailStage where
  | configError : FailStage
  | retryExhausted : FailStage
  | httpStatusError : Nat → FailStage
  | bodyDecodeError : FailStage
  | envelopeError : FailStage
  | payloadNotString : FailStage
  | payloadDecodeError : FailStage
  | validationError : FailStage

/-- What the handler produces: a validated response or an HTTPException. -/
inductive HandlerResult where
  | ok : FullContentResponse → HandlerResult
  | httpError : Nat → String → HandlerResult

/-- Observable trace of one generate_content call: its outcome, the sleeps
and outbound attempts of the retry loop, the number of json.loads calls on
the payload text, and the failure stage if any. -/
structure HandlerTrace where
  result : HandlerResult
  sleeps : List Nat
  attempts : Nat
  parseCalls : Nat
  failure : Option FailStage

/-- The placeholder default of os.getenv for the credential. -/
def placeholder_key : String := "your_api_key"

/-- The detail of the generic except-branch HTTPException. -/
def genericFail : String := "Failed to generate content from AI."

/-- The detail of the missing-configuration HTTPException. -/
def configFail : String := "Gemini API key not configured."

/-- Tail of the try-block of generate_content after call_with_retries
returned a body: envelope extraction, json.loads on the extracted text, and
pydantic validation, each failure caught by the except-branch as a 500. -/
def handle_success (body : Json) (sleeps : List Nat) (attempts : Nat) : HandlerTrace :=
  match extract_json_string body with
  | none => HandlerTrace.mk (HandlerResult.httpError 500 genericFail) sleeps attempts 0 (some FailStage.envelopeError)
  | some (Json.str s) =>
    match json_loads s with
    | none => HandlerTrace.mk (HandlerResult.httpError 500 genericFail) sleeps attempts 1 (some FailStage.payloadDecodeError)
    | some parsed =>
      match FullContentResponse.model_validate parsed with
      | none => HandlerTrace.mk (HandlerResult.httpError 500 genericFail) sleeps attempts 1 (some FailStage.validationError)
      | some resp => HandlerTrace.mk (HandlerResult.ok resp) sleeps attempts 1 none
  | some _ => HandlerTrace.mk (HandlerResult.httpError 500 genericFail) sleeps attempts 1 (some FailStage.payloadNotString)

/-- Dispatch on the outcome of call_with_retries inside the try-block; every
escaping exception is caught and mapped to the generic 500. -/
def finish_trace (t : CallTrace) : HandlerTrace :=
  match t.result with
  | RetryResult.success body => handle_success body t.sleeps t.attempts
  | RetryResult.exhausted =>
    HandlerTrace.mk (HandlerResult.httpError 500 genericFail) t.sleeps t.attempts 0 (some FailStage.retryExhausted)
  | RetryResult.httpStatusError s =>
    HandlerTrace.mk (HandlerResult.httpError 500 genericFail) t.sleeps t.attempts 0 (some (FailStage.httpStatusError s))
  | RetryResult.bodyDecodeError =>
    HandlerTrace.mk (HandlerResult.httpError 500 genericFail) t.sleeps t.attempts 0 (some FailStage.bodyDecodeError)

/-- generate_content of main.py. The placeholder check precedes the
try-block and performs no outbound call; otherwise call_with_retries is
invoked with the default of five attempts and the result is unwrapped,
parsed and validated. The query only feeds the prompt, which the external
provider answers through the responses environment. -/
def generate_content (api_key : String) (responses : Nat → HttpResponse) (query : String) : HandlerTrace :=
  if api_key = placeholder_key then
    HandlerTrace.mk (HandlerResult.httpError 500 configFail) [] 0 0 (some FailStage.configError)
  else finish_trace (call_with_retries responses 5)

/-- GEMINI_API_KEY = os.getenv("GEMINI_API_KEY", "your_api_key"). -/
def GEMINI_API_KEY (env : String → Option String) : String :=
  match env "GEMINI_API_KEY" with
  | some v => v
  | none => placeholder_key

/-- An HTTP reply of the app: status code and JSON body. -/
structure HttpReply where
  status : Nat
  body : Json

/-- FastAPI rendering of the handler outcome: a 200 with the serialized
response model, or the HTTPException status with a detail object. -/
def render_handler (t : HandlerTrace) : HttpReply :=
  match t.result with
  | HandlerResult.ok r => HttpReply.mk 200 r.toJson
  | HandlerResult.httpError s d => HttpReply.mk s (Json.obj [("detail", Json.str d)])

/-- Route dispatch of the app object: the only registered route is
POST /api/v1/generate; a known path with the wrong method is a 405 and an
unknown path is a 404, FastAPI's defaults. A request body failing
QueryRequest validation is rejected with a 422 before the handler runs. -/
def app_dispatch (env : String → Option String) (responses : Nat → HttpResponse)
    (method : String) (path : String) (reqBody : Json) : HttpReply :=
  if path = "/api/v1/generate" then
    if method = "POST" then
      match QueryRequest.model_validate reqBody with
      | none => HttpReply.mk 422 (Json.obj [("detail", Json.str "request validation error")])
      | some req => render_handler (generate_content (GEMINI_API_KEY env) responses req.query)
    else HttpReply.mk 405 (Json.obj [("detail", Json.str "Method Not Allowed")])
  else HttpReply.mk 404 (Json.obj [("detail", Json.str "Not Found")])

/-! Helper lemmas about the retry loop and about validation. -/

/-- A 2xx attempt returns the decoded body at once. -/
theorem callLoop_success (responses : Nat → HttpResponse) (i : Nat) (rest : List Nat) (j : Json)
    (hst : is2xx (responses i).status = true) (hb : json_loads (responses i).body = some j) :
    callLoop responses (i :: rest) = CallTrace.mk (RetryResult.success j) [] 1 := by
  simp [callLoop, hst, hb]

/-- A 429 attempt sleeps two to the power of the attempt index and continues
with the remaining attempts. -/
theorem callLoop_429 (responses : Nat → HttpResponse) (i : Nat) (rest : List Nat)
    (h : (responses i).status = 429) :
    callLoop responses (i :: rest) =
      CallTrace.mk (callLoop responses rest).result
        (2 ^ i :: (callLoop responses rest).sleeps)
        ((callLoop responses rest).attempts + 1) := by
  simp [callLoop, h, show is2xx 429 = false from rfl]

/-- A non-2xx, non-429 attempt re-raises at once: no retry, no sleep. -/
theorem callLoop_other (responses : Nat → HttpResponse) (i : Nat) (rest : List Nat)
    (hst : is2xx (responses i).status = false) (h429 : (responses i).status ≠ 429) :
    callLoop responses (i :: rest) =
      CallTrace.mk (RetryResult.httpStatusError (responses i).status) [] 1 := by
  simp [callLoop, hst, h429]

/-- Element-wise validation inverts element-wise encoding. -/
theorem mapOption_map (f : Json → Option α) (g : α → Json) (h : ∀ x, f (g x) = some x)
    (xs : List α) : mapOption f (xs.map g) = some xs := by
  induction xs with
  | nil => rfl
  | cons x xs ih => simp [mapOption, h, ih]

/-- Validating a serialized QuizQuestion returns it unchanged. -/
theorem quiz_validate_toJson (q : QuizQuestion) :
    QuizQuestion.model_validate q.toJson = some q := by
  obtain ⟨q1, q2, q3⟩ := q
  simp [QuizQuestion.model_validate, QuizQuestion.toJson, lookupKv, validateStr,
        validateStrList, validateList, mapOption_map validateStr Json.str (fun x => rfl)]

/-- Validating a serialized VideoRecommendation returns it unchanged. -/
theorem video_validate_toJson (v : VideoRecommendation) :
    VideoRecommendation.model_validate v.toJson = some v := by
  obtain ⟨v1, v2⟩ := v
  simp [VideoRecommendation.model_validate, VideoRecommendation.toJson, lookupKv, validateStr]

/-- Validating a serialized FullContentResponse returns it unchanged: the
handler mirrors a conforming payload without mutation. -/
theorem full_validate_toJson (r : FullContentResponse) :
    FullContentResponse.model_validate r.toJson = some r := by
  obtain ⟨e, x, vs, qs⟩ := r
  simp [FullContentResponse.model_validate, FullContentResponse.toJson, lookupKv, validateStr,
        validateList,
        mapOption_map VideoRecommendation.model_validate VideoRecommendation.toJson video_validate_toJson,
        mapOption_map QuizQuestion.model_validate QuizQuestion.toJson quiz_validate_toJson]

/-- The first five natural numbers. -/
theorem range_five : List.range 5 = [0, 1, 2, 3, 4] := rfl

/-! Concrete fixtures used by witnesses and counterexamples. -/

/-- An environment with a real (non-placeholder) credential. -/
def scenario_env : String → Option String := fun k =>
  if k = "GEMINI_API_KEY" then some "real_key" else none

/-- The provider envelope around a payload text, the shape unwrapped by
generate_content. -/
def envelope_of (text : String) : Json :=
  Json.obj [("candidates", Json.arr [Json.obj [("content", Json.obj [("parts",
    Json.arr [Json.obj [("text", Json.str text)]])])]])]

/-- A provider that always answers HTTP 429. -/
def always_429 : Nat → HttpResponse := fun _ => HttpResponse.mk 429 ""

/-- A provider that always answers HTTP 503. -/
def always_503 : Nat → HttpResponse := fun _ => HttpResponse.mk 503 ""

/-- Claim C1: when the provider answers HTTP 429 on every attempt,
call_with_retries performs exactly five attempts, sleeps the strictly
increasing delays 1, 2, 4, 8 and 16 seconds, one after each failed attempt
including the last one, and then fails with the retry-exhausted error,
which is distinct from the re-raised provider error. -/
theorem c1_rate_limited_exhausted (responses : Nat → HttpResponse)
    (h : ∀ i, i < 5 → (responses i).status = 429) :
    (call_with_retries responses 5).attempts = 5 ∧
    (call_with_retries responses 5).sleeps = [1, 2, 4, 8, 16] ∧
    (call_with_retries responses 5).result = RetryResult.exhausted ∧
    (∀ s, (call_with_retries responses 5).result ≠ RetryResult.httpStatusError s) := by
  have h0 := h 0 (by omega)
  have h1 := h 1 (by omega)
  have h2 := h 2 (by omega)
  have h3 := h 3 (by omega)
  have h4 := h 4 (by omega)
  have key : call_with_retries responses 5 = CallTrace.mk RetryResult.exhausted [1, 2, 4, 8, 16] 5 := by
    unfold call_with_retries
    rw [range_five, callLoop_429 responses 0 _ h0, callLoop_429 responses 1 _ h1,
        callLoop_429 responses 2 _ h2, callLoop_429 responses 3 _ h3,
        callLoop_429 responses 4 _ h4]
    norm_num [callLoop]
  rw [key]
  refine ⟨rfl, rfl, rfl, fun s => ?_⟩
  simp

/-- Witness for C1 at the provider that always answers 429. -/
theorem c1_rate_limited_exhausted_witness :
    (call_with_retries always_429 5).attempts = 5 ∧
    (call_with_retries always_429 5).sleeps = [1, 2, 4, 8, 16] ∧
    (call_with_retries always_429 5).result = RetryResult.exhausted ∧
    (∀ s, (call_with_retries always_429 5).result ≠ RetryResult.httpStatusError s) :=
  c1_rate_limited_exhausted always_429 (fun i _ => rfl)

/-- Claim C2: a first response with a non-2xx status other than 429 is
re-raised at once: a single attempt, no sleep, and the failure is the
re-raised provider status error, distinct from retry exhaustion. -/
theorem c2_non429_not_retried (responses : Nat → HttpResponse)
    (hst : is2xx (responses 0).status = false)
    (h429 : (responses 0).status ≠ 429) :
    (call_with_retries responses 5).result = RetryResult.httpStatusError (responses 0).status ∧
    (call_with_retries responses 5).sleeps = [] ∧
    (call_with_retries responses 5).attempts = 1 ∧
    (call_with_retries responses 5).result ≠ RetryResult.exhausted := by
  have key : call_with_retries responses 5 =
      CallTrace.mk (RetryResult.httpStatusError (responses 0).status) [] 1 := by
    unfold call_with_retries
    rw [range_five]
    exact callLoop_other responses 0 _ hst h429
  rw [key]
  exact ⟨rfl, rfl, rfl, by simp⟩

/-- Witness for C2 at the provider that always answers 503. -/
theorem c2_non429_not_retried_witness :
    (call_with_retries always_503 5).result = RetryResult.httpStatusError (always_503 0).status ∧
    (call_with_retries always_503 5).sleeps = [] ∧
    (call_with_retries always_503 5).attempts = 1 ∧
    (call_with_retries always_503 5).result ≠ RetryResult.exhausted :=
  c2_non429_not_retried always_503 rfl (by decide)

/-- Claim C5: with the credential unset or left at its placeholder, the
handler fails at once with the 500 configuration error, performing zero
outbound attempts, zero sleeps and no payload parsing. -/
theorem c5_missing_credential (env : String → Option String) (responses : Nat → HttpResponse)
    (q : String)
    (h : env "GEMINI_API_KEY" = none ∨ env "GEMINI_API_KEY" = some placeholder_key) :
    generate_content (GEMINI_API_KEY env) responses q =
      HandlerTrace.mk (HandlerResult.httpError 500 configFail) [] 0 0 (some FailStage.configError) := by
  have hk : GEMINI_API_KEY env = placeholder_key := by
    cases h with
    | inl h => simp [GEMINI_API_KEY, h]
    | inr h => simp [GEMINI_API_KEY, h]
  simp [generate_content, hk]

/-- Witness for C5 at an empty environment. -/
theorem c5_missing_credential_witness :
    generate_content (GEMINI_API_KEY (fun _ => none)) (fun _ => HttpResponse.mk 200 "") "q" =
      HandlerTrace.mk (HandlerResult.httpError 500 configFail) [] 0 0 (some FailStage.configError) :=
  c5_missing_credential (fun _ => none) (fun _ => HttpResponse.mk 200 "") "q" (Or.inl rfl)

/-- Claim C6: a 2xx provider response whose decoded body lacks the expected
envelope path fails as the envelope extraction error, before any json.loads
call on the payload text. -/
theorem c6_malformed_envelope (api_key : String) (responses : Nat → HttpResponse)
    (q : String) (body : Json)
    (hkey : api_key ≠ placeholder_key)
    (hst : is2xx (responses 0).status = true)
    (hb : json_loads (responses 0).body = some body)
    (hmiss : extract_json_string body = none) :
    (generate_content api_key responses q).result = HandlerResult.httpError 500 genericFail ∧
    (generate_content api_key responses q).failure = some FailStage.envelopeError ∧
    (generate_content api_key responses q).parseCalls = 0 := by
  have key : call_with_retries responses 5 = CallTrace.mk (RetryResult.success body) [] 1 := by
    unfold call_with_retries
    rw [range_five]
    exact callLoop_success responses 0 _ body hst hb
  simp [generate_content, hkey, key, finish_trace, handle_success, hmiss]

/-- A provider answering 200 with an envelope whose candidates array is
empty. -/
def empty_candidates_responses : Nat → HttpResponse := fun _ =>
  HttpResponse.mk 200 (Json.dumps (Json.obj [("candidates", Json.arr [])]))

/-- Witness for C6 at a 200 body with an empty candidates array. -/
theorem c6_malformed_envelope_witness :
    (generate_content "real_key" empty_candidates_responses "q").result = HandlerResult.httpError 500 genericFail ∧
    (generate_content "real_key" empty_candidates_responses "q").failure = some FailStage.envelopeError ∧
    (generate_content "real_key" empty_candidates_responses "q").parseCalls = 0 :=
  c6_malformed_envelope "real_key" empty_candidates_responses "q"
    (Json.obj [("candidates", Json.arr [])]) (by decide) rfl rfl rfl

/-! Claim C3: the scenario payload with examples as a list of strings. -/

/-- The payload of the C3 scenario, with examples given as a list of
strings as the claim demands. -/
def c3_scenario_payload : Json :=
  Json.obj [("explanation", Json.str "F=ma..."),
            ("examples", Json.arr [Json.str "..."]),
            ("videos", Json.arr [Json.obj [("title", Json.str "Intro"),
              ("url", Json.str "https://youtube.com/embed/abc")]]),
            ("quiz", Json.arr [Json.obj [("question", Json.str "What is F?"),
              ("options", Json.arr [Json.str "Force", Json.str "Mass", Json.str "Time"]),
              ("correctAnswer", Json.str "Force")]])]

/-- A provider answering 200 with the C3 scenario payload on the wire. -/
def c3_responses : Nat → HttpResponse := fun _ =>
  HttpResponse.mk 200 (Json.dumps (envelope_of (Json.dumps c3_scenario_payload)))

/-- Claim C3 counterexample: on the scenario payload of the claim, whose
examples field is a list of strings, the handler does not answer 200 with
that structure; FullContentResponse declares examples as a single string,
so validation fails and the request is rejected with the generic 500. -/
theorem c3_counterexample :
    app_dispatch scenario_env c3_responses "POST" "/api/v1/generate"
        (Json.obj [("query", Json.str "Newton\x27s second law")]) =
      HttpReply.mk 500 (Json.obj [("detail", Json.str genericFail)]) ∧
    (500 : Nat) ≠ 200 :=
  ⟨rfl, by decide⟩

/-- Claim C3 as amended: for every provider response whose payload conforms
to FullContentResponse, with examples a single string, the handler answers
200 with exactly the parsed structure, unmutated. -/
theorem c3_amended_exact_mirror (env : String → Option String) (responses : Nat → HttpResponse)
    (q s : String) (body : Json) (r : FullContentResponse)
    (hkey : GEMINI_API_KEY env ≠ placeholder_key)
    (hst : is2xx (responses 0).status = true)
    (hb : json_loads (responses 0).body = some body)
    (hex : extract_json_string body = some (Json.str s))
    (hp : json_loads s = some r.toJson) :
    app_dispatch env responses "POST" "/api/v1/generate" (Json.obj [("query", Json.str q)]) =
      HttpReply.mk 200 r.toJson := by
  have key : call_with_retries responses 5 = CallTrace.mk (RetryResult.success body) [] 1 := by
    unfold call_with_retries
    rw [range_five]
    exact callLoop_success responses 0 _ body hst hb
  simp [app_dispatch, QueryRequest.model_validate, lookupKv, validateStr, generate_content,
        hkey, key, finish_trace, handle_success, hex, hp, full_validate_toJson, render_handler]

/-- The C3 scenario payload in its conforming form, examples a single
string. -/
def c3_conforming : FullContentResponse :=
  FullContentResponse.mk "F=ma..." "..."
    [VideoRecommendation.mk "Intro" "https://youtube.com/embed/abc"]
    [QuizQuestion.mk "What is F?" ["Force", "Mass", "Time"] "Force"]

/-- A provider answering 200 with the conforming C3 payload on the wire. -/
def c3_conforming_responses : Nat → HttpResponse := fun _ =>
  HttpResponse.mk 200 (Json.dumps (envelope_of (Json.dumps c3_conforming.toJson)))

/-- Witness for the amended C3 at the conforming scenario payload. -/
theorem c3_amended_exact_mirror_witness :
    app_dispatch scenario_env c3_conforming_responses "POST" "/api/v1/generate"
        (Json.obj [("query", Json.str "Newton\x27s second law")]) =
      HttpReply.mk 200 c3_conforming.toJson :=
  c3_amended_exact_mirror scenario_env c3_conforming_responses "Newton\x27s second law"
    (Json.dumps c3_conforming.toJson) (envelope_of (Json.dumps c3_conforming.toJson))
    c3_conforming (by decide) rfl rfl rfl rfl

/-! Claim C4: status codes do not discriminate the failure class. -/

/-- A provider answering 200 with a payload text that is not JSON. -/
def badjson_responses : Nat → HttpResponse := fun _ =>
  HttpResponse.mk 200 (Json.dumps (envelope_of "not json"))

/-- Claim C4 counterexample: a provider-unavailable failure (HTTP 503) is
answered with 500 rather than 502, and an invalid payload format is also
answered with 500 rather than 422. -/
theorem c4_counterexample :
    (app_dispatch scenario_env always_503 "POST" "/api/v1/generate"
        (Json.obj [("query", Json.str "q")])).status = 500 ∧
    (500 : Nat) ≠ 502 ∧
    (app_dispatch scenario_env badjson_responses "POST" "/api/v1/generate"
        (Json.obj [("query", Json.str "q")])).status = 500 ∧
    (500 : Nat) ≠ 422 :=
  ⟨rfl, by decide, rfl, by decide⟩

/-- Claim C4 as amended: the handler never discriminates failure classes by
status: every outcome is either a 200 with the validated package or a 500
carrying one of the two fixed detail messages; 502 and 422 are never
produced by the handler, the only 422 of the endpoint coming from the
framework's request-body validation. -/
theorem c4_amended_all_failures_500 (api_key : String) (responses : Nat → HttpResponse) (q : String) :
    (render_handler (generate_content api_key responses q)).status = 200 ∨
    ((render_handler (generate_content api_key responses q)).status = 500 ∧
      ((render_handler (generate_content api_key responses q)).body =
          Json.obj [("detail", Json.str configFail)] ∨
       (render_handler (generate_content api_key responses q)).body =
          Json.obj [("detail", Json.str genericFail)])) := by
  unfold generate_content
  by_cases hk : api_key = placeholder_key
  · simp [hk, render_handler]
  · simp only [hk, if_neg, ite_false]
    unfold finish_trace
    cases hres : (call_with_retries responses 5).result with
    | success body =>
      unfold handle_success
      cases hex : extract_json_string body with
      | none => simp [render_handler, hex]
      | some t =>
        cases t with
        | str s =>
          cases hl : json_loads s with
          | none => simp [render_handler, hex, hl]
          | some parsed =>
            cases hv : FullContentResponse.model_validate parsed with
            | none => simp [render_handler, hex, hl, hv]
            | some r => simp [render_handler, hex, hl, hv]
        | null => simp [render_handler, hex]
        | bool b => simp [render_handler, hex]
        | num n => simp [render_handler, hex]
        | arr xs => simp [render_handler, hex]
        | obj kvs => simp [render_handler, hex]
    | bodyDecodeError => simp [render_handler]
    | httpStatusError s => simp [render_handler]
    | exhausted => simp [render_handler]

/-! Claim C7: the quiz invariant is not enforced. -/

/-- A package whose single quiz item has one option and a correctAnswer not
among its options. -/
def c7_package : FullContentResponse :=
  FullContentResponse.mk "E" "X" [] [QuizQuestion.mk "Q?" ["Only"] "Other"]

/-- A provider answering 200 with the invariant-violating package. -/
def c7_responses : Nat → HttpResponse := fun _ =>
  HttpResponse.mk 200 (Json.dumps (envelope_of (Json.dumps c7_package.toJson)))

/-- Claim C7 counterexample: a parsed payload whose quiz item has a single
option and a correctAnswer that is not among the options passes validation
and is returned to the caller with a 200, instead of being rejected as a
schema violation. -/
theorem c7_counterexample :
    app_dispatch scenario_env c7_responses "POST" "/api/v1/generate"
        (Json.obj [("query", Json.str "q")]) =
      HttpReply.mk 200 c7_package.toJson ∧
    ¬ (∀ qq ∈ c7_package.quiz, 2 ≤ qq.options.length ∧ qq.correctAnswer ∈ qq.options) :=
  ⟨rfl, by decide⟩

/-- Claim C7 as amended: validation enforces only the presence and types of
question, options and correctAnswer; a quiz item validates regardless of
its option count and of whether correctAnswer is among the options. -/
theorem c7_amended_types_only (e x qq ca : String) (vs : List VideoRecommendation)
    (opts : List String) :
    FullContentResponse.model_validate
        (FullContentResponse.toJson (FullContentResponse.mk e x vs [QuizQuestion.mk qq opts ca])) =
      some (FullContentResponse.mk e x vs [QuizQuestion.mk qq opts ca]) :=
  full_validate_toJson (FullContentResponse.mk e x vs [QuizQuestion.mk qq opts ca])

/-! Claim C8: there is no health endpoint. -/

/-- Claim C8 counterexample: a GET request to /health is answered 404 by
the app, whose only registered route is POST /api/v1/generate; it is not a
successful healthy response. -/
theorem c8_counterexample :
    (app_dispatch scenario_env (fun _ => HttpResponse.mk 200 "") "GET" "/health" Json.null).status = 404 ∧
    (404 : Nat) ≠ 200 :=
  ⟨rfl, by decide⟩

/-- Claim C8 as amended: the app registers no /health route, so every GET
request to /health is answered with the framework's 404 Not Found,
whatever the environment, the provider and the request body. -/
theorem c8_amended_no_health_route (env : String → Option String)
    (responses : Nat → HttpResponse) (body : Json) :
    app_dispatch env responses "GET" "/health" body =
      HttpReply.mk 404 (Json.obj [("detail", Json.str "Not Found")]) := rfl

/-! Claim C9: the framework boundary accepts an empty query. -/

/-- Claim C9 counterexample: a request whose query is the empty string
passes the framework's body validation and reaches the handler, which
processes it; with the credential unset it runs to the configuration
error rather than being rejected with a validation error. -/
theorem c9_counterexample :
    QueryRequest.model_validate (Json.obj [("query", Json.str "")]) = some (QueryRequest.mk "") ∧
    app_dispatch (fun _ => none) (fun _ => HttpResponse.mk 200 "") "POST" "/api/v1/generate"
        (Json.obj [("query", Json.str "")]) =
      HttpReply.mk 500 (Json.obj [("detail", Json.str configFail)]) :=
  ⟨rfl, rfl⟩

/-- Claim C9 as amended: the framework boundary only requires the query
field to be present and to be a string; every string, the empty one
included, validates, and the request is handed to the handler. -/
theorem c9_amended_empty_query_reaches_handler (env : String → Option String)
    (responses : Nat → HttpResponse) (q : String) :
    QueryRequest.model_validate (Json.obj [("query", Json.str q)]) = some (QueryRequest.mk q) ∧
    app_dispatch env responses "POST" "/api/v1/generate" (Json.obj [("query", Json.str q)]) =
      render_handler (generate_content (GEMINI_API_KEY env) responses q) :=
  ⟨rfl, rfl⟩

/-! Claim C10: extra keys are ignored and dropped. -/

/-- Claim C10: a payload that validates keeps validating to the same
package when an unknown extra key is added, and the extra key is absent
from the serialized response, pydantic's default behaviour of silently
ignoring extra keys. -/
theorem c10_extra_keys_ignored (kvs : List (String × Json)) (k : String) (v : Json)
    (r : FullContentResponse)
    (hk1 : k ≠ "explanation") (hk2 : k ≠ "examples") (hk3 : k ≠ "videos") (hk4 : k ≠ "quiz")
    (hv : FullContentResponse.model_validate (Json.obj kvs) = some r) :
    FullContentResponse.model_validate (Json.obj ((k, v) :: kvs)) = some r ∧
    (FullContentResponse.toJson r).getKey k = none := by
  constructor
  · simpa [FullContentResponse.model_validate, lookupKv, hk1, hk2, hk3, hk4] using hv
  · simp [FullContentResponse.toJson, Json.getKey, lookupKv,
          Ne.symm hk1, Ne.symm hk2, Ne.symm hk3, Ne.symm hk4]

/-- The canonical key-value list of the conforming C3 package. -/
def c10_kvs : List (String × Json) :=
  [("explanation", Json.str "F=ma..."),
   ("examples", Json.str "..."),
   ("videos", Json.arr [Json.obj [("title", Json.str "Intro"),
     ("url", Json.str "https://youtube.com/embed/abc")]]),
   ("quiz", Json.arr [Json.obj [("question", Json.str "What is F?"),
     ("options", Json.arr [Json.str "Force", Json.str "Mass", Json.str "Time"]),
     ("correctAnswer", Json.str "Force")]])]

/-- Witness for C10 with the extra key named extra. -/
theorem c10_extra_keys_ignored_witness :
    FullContentResponse.model_validate (Json.obj (("extra", Json.str "x") :: c10_kvs)) =
      some c3_conforming ∧
    (FullContentResponse.toJson c3_conforming).getKey "extra" = none :=
  c10_extra_keys_ignored c10_kvs "extra" (Json.str "x") c3_conforming
    (by decide) (by decide) (by decide) (by decide) rfl
